import Mathlib

/-!
Shallow embedding of the blogicum blog application (src/blogicum/blog/views.py
and src/blogicum/blog/forms.py).

The data model follows the entities the views manipulate: `Post`, `Category`,
`Comment`, `User`.  Users are identified by their (unique) username, matching
the `author__username` lookups and the `instance.author != request.user`
comparisons in the views.  Time is a natural-number timestamp; `datetime.now()`
becomes an explicit `now` parameter.  The database is a list-backed record;
`get_object_or_404(...)` becomes `List.find?` returning `Option`, and a `none`
result is rendered as a not-found response.  Each view class becomes a function
from the database, the requester and the route arguments to a `Response`
(and, for mutating views, the successor database).
-/

structure Category where
  id : Nat
  slug : String
  is_published : Bool
deriving DecidableEq, Repr

structure Post where
  id : Nat
  title : String
  text : String
  image : String
  pub_date : Nat
  is_published : Bool
  author : String
  category : Option Nat
  location : Option Nat
deriving DecidableEq, Repr

structure Comment where
  id : Nat
  text : String
  author : String
  post : Nat
deriving DecidableEq, Repr

structure User where
  username : String
deriving DecidableEq, Repr

structure DB where
  users : List User
  categories : List Category
  posts : List Post
  comments : List Comment
deriving DecidableEq, Repr

/-- The requester attached to an HTTP request: either an anonymous user or an
authenticated user identified by username (`request.user`). -/
inductive Requester where
  | anon : Requester
  | auth (username : String) : Requester
deriving DecidableEq, Repr

/-- Redirect targets produced by the views (`redirect(...)` / success URLs). -/
inductive Redirect where
  | login : Redirect
  | postDetail (pk : Nat) : Redirect
  | profile (username : String) : Redirect
deriving DecidableEq, Repr

/-- The response of a view: a rendered post, a not-found (404), a
forbidden (403, `PermissionDenied`), or a redirect. -/
inductive Response where
  | ok (p : Post) : Response
  | notFound : Response
  | forbidden : Response
  | redirect (r : Redirect) : Response
deriving DecidableEq, Repr

def findCategory (db : DB) (cid : Nat) : Option Category :=
  db.categories.find? (fun c => c.id == cid)

def findPost (db : DB) (pk : Nat) : Option Post :=
  db.posts.find? (fun p => p.id == pk)

/-- Resolution of the `category__is_published=True` lookup: the post's category
exists and carries `is_published=True`.  A post with no category fails the
inner join and is filtered out, as in the ORM. -/
def categoryPublished (db : DB) (p : Post) : Bool :=
  match p.category with
  | none => false
  | some cid =>
    match findCategory db cid with
    | none => false
    | some c => c.is_published

/-- Resolution of the `category__slug` lookup. -/
def categorySlug (db : DB) (p : Post) : Option String :=
  match p.category with
  | none => none
  | some cid => (findCategory db cid).map (fun c => c.slug)

/-- The tri-predicate of the visibility filter:
`is_published=True, category__is_published=True, pub_date__lte=cur_time`. -/
def postVisible (db : DB) (now : Nat) (p : Post) : Bool :=
  p.is_published && categoryPublished db p && decide (p.pub_date ≤ now)

/-- `get_post_filter()` (views.py lines 18-22): all posts restricted by the
visibility tri-predicate, with `datetime.now()` passed in as `now`. -/
def get_post_filter (db : DB) (now : Nat) : List Post :=
  db.posts.filter (fun p => postVisible db now p)

/-- The ordering relation of `order_by('-pub_date')`: descending publish date. -/
def pubDateGe (a b : Post) : Prop := b.pub_date ≤ a.pub_date

instance : DecidableRel pubDateGe := fun a b => Nat.decLe b.pub_date a.pub_date

instance : IsTotal Post pubDateGe := ⟨fun a b => Nat.le_total b.pub_date a.pub_date⟩

instance : IsTrans Post pubDateGe := ⟨fun _ _ _ h1 h2 => Nat.le_trans h2 h1⟩

/-- `order_by('-pub_date')`: sort the queryset by descending publish date. -/
def order_by_pub_date_desc (l : List Post) : List Post :=
  l.insertionSort pubDateGe

/-- `POSTS_ON_PAGE_COUNT = 10` (views.py line 15), used as `paginate_by`
through `PostPaginateMixin`. -/
def POSTS_ON_PAGE_COUNT : Nat := 10

/-- The page of index `n` (0-based) served by the paginator at page size
`POSTS_ON_PAGE_COUNT`. -/
def getPage (l : List Post) (n : Nat) : List Post :=
  (l.drop (POSTS_ON_PAGE_COUNT * n)).take POSTS_ON_PAGE_COUNT

/-- The `comment_count=Count('comments')` annotation attached to each listed
post; it decorates rows and does not affect queryset membership. -/
def comment_count (db : DB) (p : Post) : Nat :=
  (db.comments.filter (fun c => c.post == p.id)).length

/-- `PostListView.get_queryset` (views.py lines 111-114): the visibility
filter, annotated and ordered by descending publish date. -/
def PostListView_get_queryset (db : DB) (now : Nat) : List Post :=
  order_by_pub_date_desc (get_post_filter db now)

/-- `ProfileListView.get_queryset` (views.py lines 33-37): all posts whose
author has the given username, annotated and ordered by descending publish
date.  The queryset reads only the `username` URL kwarg; it never consults
`request.user` and applies no visibility filter. -/
def ProfileListView_get_queryset (db : DB) (username : String) : List Post :=
  order_by_pub_date_desc (db.posts.filter (fun p => p.author == username))

/-- `CategoryListView.get_queryset` (views.py lines 143-147): the visibility
filter restricted to the category slug, ordered by descending publish date. -/
def CategoryListView_get_queryset (db : DB) (now : Nat) (slug : String) : List Post :=
  order_by_pub_date_desc
    ((get_post_filter db now).filter (fun p => categorySlug db p == some slug))

/-- The listing `PostListView` serves to a requester: the view has no
authentication mixin and its queryset ignores `request.user`, so every
requester receives the same rows. -/
def PostListView_response (db : DB) (_r : Requester) (now : Nat) : List Post :=
  PostListView_get_queryset db now

/-- The listing `ProfileListView` serves to a requester: the view has no
authentication mixin and its queryset ignores `request.user`, so every
requester receives the same rows. -/
def ProfileListView_response (db : DB) (_r : Requester) (username : String) : List Post :=
  ProfileListView_get_queryset db username

/-- The listing `CategoryListView` serves to a requester: the view has no
authentication mixin and its queryset ignores `request.user`, so every
requester receives the same rows. -/
def CategoryListView_response (db : DB) (_r : Requester) (now : Nat) (slug : String) :
    List Post :=
  CategoryListView_get_queryset db now slug

/-- `instance.author == request.user`: an anonymous requester never equals a
post's author. -/
def authorIs (r : Requester) (p : Post) : Bool :=
  match r with
  | .anon => false
  | .auth u => u == p.author

/-- `PostDetailView.dispatch` (views.py lines 121-131): fetch the post by pk
(404 when absent); if the requester is the author, serve it; otherwise
re-fetch under the visibility tri-predicate (404 when it fails) and serve. -/
def PostDetailView_dispatch (db : DB) (now : Nat) (r : Requester) (pk : Nat) : Response :=
  match findPost db pk with
  | none => .notFound
  | some inst =>
    if authorIs r inst then .ok inst
    else if postVisible db now inst then .ok inst
    else .notFound

/-- Modelled from the spec: the Post model (models.py is not under src/)
carries a published flag; the value a freshly created post receives is not
fixed by the views or forms, so it is pinned here as a constant.  No claim
depends on its value. -/
def IS_PUBLISHED_DEFAULT : Bool := true

/-- The fields `PostCreateForm` binds from the submitted data: every model
field except the excluded `author` and `is_published` (forms.py lines 6-15). -/
structure PostFormFields where
  title : String
  text : String
  image : String
  pub_date : Nat
  category : Option Nat
  location : Option Nat
deriving DecidableEq, Repr

/-- A raw form submission: the bindable fields plus whatever `author` /
`is_published` values the payload happens to carry. -/
structure PostFormPayload where
  fields : PostFormFields
  author_field : Option String
  is_published_field : Option Bool
deriving DecidableEq, Repr

/-- Binding a submission through `PostCreateForm`: the excluded `author` and
`is_published` entries are dropped; only the declared fields survive. -/
def PostCreateForm_bind (payload : PostFormPayload) : PostFormFields :=
  payload.fields

/-- `PostCreateView.form_valid` (views.py lines 68-70): build the new post
from the bound form and overwrite `form.instance.author` with
`self.request.user`. -/
def PostCreateView_form_valid (u : String) (newId : Nat) (payload : PostFormPayload) : Post :=
  let f := PostCreateForm_bind payload
  { id := newId, title := f.title, text := f.text, image := f.image,
    pub_date := f.pub_date, is_published := IS_PUBLISHED_DEFAULT, author := u,
    category := f.category, location := f.location }

/-- `PostCreateView` (views.py lines 65-70): `LoginRequiredMixin` redirects an
anonymous requester to the login page; otherwise the post is created with
`author := request.user` and the view redirects to the requester's profile
(`PostActionMixin.get_success_url`). -/
def PostCreateView (db : DB) (r : Requester) (newId : Nat) (payload : PostFormPayload) :
    Response × DB :=
  match r with
  | .anon => (.redirect .login, db)
  | .auth u =>
    let p := PostCreateView_form_valid u newId payload
    (.redirect (.profile u), { db with posts := db.posts ++ [p] })

/-- The fields `PostUpdateView` edits: `('title', 'text', 'location',
'category', 'image')` (views.py line 74). -/
structure PostUpdateFormFields where
  title : String
  text : String
  location : Option Nat
  category : Option Nat
  image : String
deriving DecidableEq, Repr

/-- Applying a bound update form to a post: only the five declared fields
change. -/
def applyPostUpdate (p : Post) (f : PostUpdateFormFields) : Post :=
  { p with title := f.title, text := f.text, location := f.location,
           category := f.category, image := f.image }

/-- `PostUpdateView` (views.py lines 73-89): `dispatch` fetches the post by pk
(404 when absent) and redirects to the post's detail page unless the requester
is authenticated and is the author; otherwise the five editable fields are
written and the success URL is again the detail page. -/
def PostUpdateView (db : DB) (r : Requester) (pk : Nat) (f : PostUpdateFormFields) :
    Response × DB :=
  match findPost db pk with
  | none => (.notFound, db)
  | some inst =>
    if authorIs r inst then
      (.redirect (.postDetail pk),
       { db with posts := db.posts.map (fun q => if q.id == pk then applyPostUpdate q f else q) })
    else (.redirect (.postDetail pk), db)

/-- `PostDeleteView` (views.py lines 92-99): `dispatch` fetches the post by pk
(404 when absent) and raises `PermissionDenied` unless `instance.author ==
request.user` — this check runs before `LoginRequiredMixin`, so an anonymous
requester also gets the 403.  On success the post is deleted and the view
redirects to the requester's profile. -/
def PostDeleteView (db : DB) (r : Requester) (pk : Nat) : Response × DB :=
  match findPost db pk with
  | none => (.notFound, db)
  | some inst =>
    if authorIs r inst then
      (.redirect (.profile inst.author),
       { db with posts := db.posts.filter (fun q => !(q.id == pk)) })
    else (.forbidden, db)

/-- `CommentCreateView` (views.py lines 157-168): `LoginRequiredMixin`
redirects an anonymous requester to login; otherwise `form_valid` sets
`author := request.user` and `post := get_object_or_404(Post, pk)` — the post
is looked up by identifier only, with no visibility condition — and the view
redirects to the post's detail page. -/
def CommentCreateView (db : DB) (r : Requester) (pk : Nat) (newId : Nat) (text : String) :
    Response × DB :=
  match r with
  | .anon => (.redirect .login, db)
  | .auth u =>
    match findPost db pk with
    | none => (.notFound, db)
    | some _ =>
      (.redirect (.postDetail pk),
       { db with comments := db.comments ++ [{ id := newId, text := text, author := u, post := pk }] })

/-- `CommentUpdateView.get_object` (views.py lines 179-183):
`get_object_or_404(Comment, id=comment_pk, author=request.user)` — the lookup
is scoped to the requesting user. -/
def CommentUpdateView_get_object (db : DB) (u : String) (comment_pk : Nat) : Option Comment :=
  db.comments.find? (fun c => c.id == comment_pk && c.author == u)

/-- `CommentUpdateView` (views.py lines 176-187): login required; the
author-scoped lookup 404s for a non-owner; on success only the `text` field
(`CommentFieldsMixin.fields`) is written and the view redirects to the post's
detail page. -/
def CommentUpdateView (db : DB) (r : Requester) (pk : Nat) (comment_pk : Nat)
    (newText : String) : Response × DB :=
  match r with
  | .anon => (.redirect .login, db)
  | .auth u =>
    match CommentUpdateView_get_object db u comment_pk with
    | none => (.notFound, db)
    | some _ =>
      (.redirect (.postDetail pk),
       { db with comments := db.comments.map (fun c =>
           if c.id == comment_pk && c.author == u then { c with text := newText } else c) })

/-- `CommentDeleteView.get_object` (views.py lines 193-197):
`get_object_or_404(Comment, pk=comment_pk, author=request.user)` — the same
author-scoped lookup (`pk` and `id` name the same column). -/
def CommentDeleteView_get_object (db : DB) (u : String) (comment_pk : Nat) : Option Comment :=
  db.comments.find? (fun c => c.id == comment_pk && c.author == u)

/-- `CommentDeleteView` (views.py lines 190-201): login required; the
author-scoped lookup 404s for a non-owner; on success the comment is deleted
and the view redirects to the post's detail page. -/
def CommentDeleteView (db : DB) (r : Requester) (pk : Nat) (comment_pk : Nat) :
    Response × DB :=
  match r with
  | .anon => (.redirect .login, db)
  | .auth u =>
    match CommentDeleteView_get_object db u comment_pk with
    | none => (.notFound, db)
    | some _ =>
      (.redirect (.postDetail pk),
       { db with comments := db.comments.filter (fun c =>
           !(c.id == comment_pk && c.author == u)) })

/-- Comment identifiers are unique in the database — the primary-key
discipline the ORM guarantees. -/
def commentsIdUnique (db : DB) : Prop :=
  db.comments.Pairwise (fun a b => a.id ≠ b.id)

/-! ## Helper lemmas -/

theorem mem_order_by_pub_date_desc {p : Post} {l : List Post} :
    p ∈ order_by_pub_date_desc l ↔ p ∈ l :=
  (List.perm_insertionSort pubDateGe l).mem_iff

theorem sorted_order_by_pub_date_desc (l : List Post) :
    List.Sorted pubDateGe (order_by_pub_date_desc l) :=
  List.sorted_insertionSort pubDateGe l

theorem mem_get_post_filter {db : DB} {now : Nat} {P : Post} :
    P ∈ get_post_filter db now ↔ P ∈ db.posts ∧ postVisible db now P = true := by
  simp [get_post_filter, List.mem_filter]

theorem eq_of_mem_of_id_unique {l : List Comment}
    (h : l.Pairwise (fun a b => a.id ≠ b.id)) :
    ∀ c1 ∈ l, ∀ c2 ∈ l, c1.id = c2.id → c1 = c2 := by
  induction l with
  | nil => intro c1 h1; cases h1
  | cons a l ih =>
    intro c1 h1 c2 h2 hid
    have hpc := List.pairwise_cons.mp h
    rcases List.mem_cons.mp h1 with e1 | m1
    · rcases List.mem_cons.mp h2 with e2 | m2
      · rw [e1, e2]
      · subst e1; exact absurd hid (hpc.1 _ m2)
    · rcases List.mem_cons.mp h2 with e2 | m2
      · subst e2; exact absurd hid.symm (hpc.1 _ m1)
      · exact ih hpc.2 c1 m1 c2 m2 hid

theorem find?_map_invariant {α : Type} (g : α → α) (p : α → Bool)
    (hg : ∀ a, p (g a) = p a) (l : List α) :
    (l.map g).find? p = (l.find? p).map g := by
  induction l with
  | nil => rfl
  | cons a l ih =>
    by_cases h : p a = true
    · have h2 : p (g a) = true := by rw [hg]; exact h
      simp [List.find?_cons_of_pos _ h, List.find?_cons_of_pos _ h2]
    · have h2 : ¬ p (g a) = true := by rw [hg]; exact h
      simp [List.find?_cons_of_neg _ h, List.find?_cons_of_neg _ h2, ih]

/-! ## Concrete fixtures used by witnesses and counterexamples -/

def exCategory : Category := { id := 1, slug := "nature", is_published := true }

/-- A post by "alice" that fails the visibility tri-predicate: it is
unpublished (its category is published and its publish date is in the past
relative to `now = 10`). -/
def exHiddenPost : Post :=
  { id := 1, title := "draft", text := "t", image := "", pub_date := 5,
    is_published := false, author := "alice", category := some 1, location := none }

/-- A post by "alice" satisfying the visibility tri-predicate at `now = 10`. -/
def exVisiblePost : Post :=
  { id := 2, title := "hello", text := "world", image := "", pub_date := 3,
    is_published := true, author := "alice", category := some 1, location := none }

def exComment : Comment := { id := 1, text := "nice", author := "alice", post := 2 }

def exDB : DB :=
  { users := [{ username := "alice" }, { username := "bob" }],
    categories := [exCategory],
    posts := [exHiddenPost, exVisiblePost],
    comments := [exComment] }

def exUpdForm : PostUpdateFormFields :=
  { title := "new title", text := "new text", location := none,
    category := some 1, image := "pic" }

/-! ## Claim theorems -/

/-- C2: a post `P` is in the public index listing — and, restricted to its
category's slug, in the category listing — if and only if `P.is_published`,
`P`'s category is published, and `P.pub_date ≤ now`. -/
theorem index_and_category_listing_iff (db : DB) (now : Nat) (P : Post)
    (hP : P ∈ db.posts) :
    (P ∈ PostListView_get_queryset db now ↔
      (P.is_published = true ∧ categoryPublished db P = true ∧ P.pub_date ≤ now))
    ∧ ∀ slug : String, categorySlug db P = some slug →
      (P ∈ CategoryListView_get_queryset db now slug ↔
        (P.is_published = true ∧ categoryPublished db P = true ∧ P.pub_date ≤ now)) := by
  constructor
  · rw [PostListView_get_queryset, mem_order_by_pub_date_desc, mem_get_post_filter]
    simp [postVisible, hP, and_assoc]
  · intro slug hslug
    rw [CategoryListView_get_queryset, mem_order_by_pub_date_desc, List.mem_filter,
      mem_get_post_filter]
    simp [postVisible, hP, hslug, and_assoc]

/-- C8: every listing view (index, profile, category) is ordered by descending
publish date and paginated at the fixed page size `POSTS_ON_PAGE_COUNT = 10`:
page `n` holds `min 10 (length - 10 * n)` posts. -/
theorem listings_paginated_and_ordered (db : DB) (now : Nat) (username slug : String)
    (n : Nat) :
    POSTS_ON_PAGE_COUNT = 10
    ∧ List.Sorted pubDateGe (PostListView_get_queryset db now)
    ∧ List.Sorted pubDateGe (ProfileListView_get_queryset db username)
    ∧ List.Sorted pubDateGe (CategoryListView_get_queryset db now slug)
    ∧ (getPage (PostListView_get_queryset db now) n).length
        = min POSTS_ON_PAGE_COUNT
            ((PostListView_get_queryset db now).length - POSTS_ON_PAGE_COUNT * n)
    ∧ (getPage (ProfileListView_get_queryset db username) n).length
        = min POSTS_ON_PAGE_COUNT
            ((ProfileListView_get_queryset db username).length - POSTS_ON_PAGE_COUNT * n)
    ∧ (getPage (CategoryListView_get_queryset db now slug) n).length
        = min POSTS_ON_PAGE_COUNT
            ((CategoryListView_get_queryset db now slug).length - POSTS_ON_PAGE_COUNT * n) := by
  refine ⟨rfl, sorted_order_by_pub_date_desc _, sorted_order_by_pub_date_desc _,
    sorted_order_by_pub_date_desc _, ?_, ?_, ?_⟩ <;>
    simp [getPage, List.length_take, List.length_drop]

/-- C3: the detail page serves a post to its author unconditionally; any other
requester gets the post exactly when the visibility tri-predicate holds, and a
not-found — never a forbidden — otherwise. -/
theorem post_detail_access (db : DB) (now : Nat) (pk : Nat) (P : Post)
    (hP : findPost db pk = some P) :
    PostDetailView_dispatch db now (.auth P.author) pk = .ok P
    ∧ ∀ r : Requester, r ≠ .auth P.author →
        (PostDetailView_dispatch db now r pk
          = if postVisible db now P then .ok P else .notFound)
        ∧ PostDetailView_dispatch db now r pk ≠ .forbidden := by
  constructor
  · simp [PostDetailView_dispatch, hP, authorIs]
  · intro r hr
    have hnot : authorIs r P = false := by
      cases r with
      | anon => rfl
      | auth u =>
        have hu : u ≠ P.author := fun h => hr (by rw [h])
        simp [authorIs, hu]
    constructor
    · simp [PostDetailView_dispatch, hP, hnot]
    · simp only [PostDetailView_dispatch, hP, hnot]
      by_cases hv : postVisible db now P = true <;> simp [hv]

/-- C3 witness: on the concrete database, the author "alice" sees her hidden
post's detail page while "bob" gets a not-found. -/
theorem post_detail_access_witness :
    PostDetailView_dispatch exDB 10 (.auth "alice") 1 = .ok exHiddenPost
    ∧ PostDetailView_dispatch exDB 10 (.auth "bob") 1 = .notFound := by
  have h := post_detail_access exDB 10 1 exHiddenPost (by decide)
  refine ⟨h.1, ?_⟩
  rw [(h.2 (.auth "bob") (by decide)).1]
  decide

/-- C1 counterexample: the hidden (unpublished) post of "alice" is served in
the profile listing of "alice" to the authenticated non-author "bob" — the
profile queryset applies no visibility filter and ignores the requester. -/
theorem profile_listing_shows_hidden_post_to_nonowner :
    exHiddenPost.is_published = false
    ∧ exHiddenPost.author = "alice"
    ∧ Requester.auth "bob" ≠ Requester.auth "alice"
    ∧ exHiddenPost ∈ ProfileListView_response exDB (.auth "bob") "alice" := by
  refine ⟨rfl, rfl, by decide, ?_⟩
  decide

/-- C1 (amended): a post failing the visibility tri-predicate never appears in
the index or category listings, for any requester; the profile listing of the
post's author, however, serves every one of the author's posts — hidden or
not — to every requester. -/
theorem hidden_post_listing_visibility (db : DB) (now : Nat) (P : Post)
    (hP : P ∈ db.posts)
    (hHidden : ¬(P.is_published = true ∧ categoryPublished db P = true ∧ P.pub_date ≤ now)) :
    (∀ r : Requester, P ∉ PostListView_response db r now)
    ∧ (∀ (r : Requester) (slug : String), P ∉ CategoryListView_response db r now slug)
    ∧ (∀ r : Requester, P ∈ ProfileListView_response db r P.author) := by
  have hvis : postVisible db now P = false := by
    rw [postVisible]
    by_contra hcon
    rw [Bool.not_eq_false] at hcon
    simp only [Bool.and_eq_true, decide_eq_true_eq] at hcon
    exact hHidden ⟨hcon.1.1, hcon.1.2, hcon.2⟩
  refine ⟨?_, ?_, ?_⟩
  · intro r hm
    rw [PostListView_response, PostListView_get_queryset, mem_order_by_pub_date_desc,
      mem_get_post_filter] at hm
    rw [hm.2] at hvis
    cases hvis
  · intro r slug hm
    rw [CategoryListView_response, CategoryListView_get_queryset,
      mem_order_by_pub_date_desc, List.mem_filter, mem_get_post_filter] at hm
    rw [hm.1.2] at hvis
    cases hvis
  · intro r
    rw [ProfileListView_response, ProfileListView_get_queryset,
      mem_order_by_pub_date_desc, List.mem_filter]
    exact ⟨hP, by simp⟩

/-- C1 (amended) witness: on the concrete database the hidden post is absent
from the index listing served to "bob" but present in the profile listing of
its author served to "bob". -/
theorem hidden_post_listing_visibility_witness :
    exHiddenPost ∉ PostListView_response exDB (.auth "bob") 10
    ∧ exHiddenPost ∈ ProfileListView_response exDB (.auth "bob") "alice" := by
  have h := hidden_post_listing_visibility exDB 10 exHiddenPost (by decide) (by decide)
  exact ⟨h.1 _, h.2.2 (.auth "bob")⟩

/-- C4: for an authenticated requester `u` who is not the author of comment
`C`, both the comment update and the comment delete views resolve as
not-found — the lookup is scoped to `author = requester` — and the database
(hence `C`) is unchanged. -/
theorem comment_mutation_nonowner_notfound (db : DB) (u : String)
    (pk comment_pk : Nat) (newText : String) (C : Comment)
    (hwf : commentsIdUnique db) (hC : C ∈ db.comments) (hid : C.id = comment_pk)
    (hne : u ≠ C.author) :
    CommentUpdateView db (.auth u) pk comment_pk newText = (.notFound, db)
    ∧ CommentDeleteView db (.auth u) pk comment_pk = (.notFound, db) := by
  have hfind : db.comments.find? (fun c => c.id == comment_pk && c.author == u) = none := by
    rw [List.find?_eq_none]
    intro c hc hcontra
    simp only [Bool.and_eq_true, beq_iff_eq] at hcontra
    have hceq : c = C := eq_of_mem_of_id_unique hwf c hc C hC (by rw [hcontra.1, hid])
    rw [hceq] at hcontra
    exact hne hcontra.2.symm
  constructor
  · simp [CommentUpdateView, CommentUpdateView_get_object, hfind]
  · simp [CommentDeleteView, CommentDeleteView_get_object, hfind]

/-- C4 witness: on the concrete database, "bob" attempting to update or delete
the comment owned by "alice" gets a not-found and the database is unchanged. -/
theorem comment_mutation_nonowner_notfound_witness :
    CommentUpdateView exDB (.auth "bob") 2 1 "edited" = (.notFound, exDB)
    ∧ CommentDeleteView exDB (.auth "bob") 2 1 = (.notFound, exDB) :=
  comment_mutation_nonowner_notfound exDB "bob" 2 1 "edited" exComment
    (by simp [commentsIdUnique, exDB]) (by decide) (by decide) (by decide)

/-- C5: the authenticated post-creation flow stores the requester as the
post's author for every payload; two payloads with the same bindable fields —
hence differing only in any author / is_published values the form excludes —
produce identical posts, whose author is the requester. -/
theorem post_create_author_is_requester (u : String) (newId : Nat)
    (p1 p2 : PostFormPayload) (hsame : p1.fields = p2.fields) :
    (PostCreateView_form_valid u newId p1).author = u
    ∧ PostCreateView_form_valid u newId p1 = PostCreateView_form_valid u newId p2
    ∧ ∀ db : DB, (PostCreateView db (.auth u) newId p1).2.posts
        = db.posts ++ [PostCreateView_form_valid u newId p1] := by
  refine ⟨rfl, ?_, fun db => rfl⟩
  simp [PostCreateView_form_valid, PostCreateForm_bind, hsame]

/-- Fields of a concrete post-creation submission. -/
def exFormFields : PostFormFields :=
  { title := "t", text := "x", image := "", pub_date := 4, category := some 1,
    location := none }

/-- A submission carrying a forged author value. -/
def exPayloadA : PostFormPayload :=
  { fields := exFormFields, author_field := some "mallory", is_published_field := none }

/-- The same bindable fields with a different forged author value. -/
def exPayloadB : PostFormPayload :=
  { fields := exFormFields, author_field := some "bob", is_published_field := some false }

/-- C5 witness: two concrete submissions differing only in the forged author
value yield the same stored post, authored by the requester "alice". -/
theorem post_create_author_is_requester_witness :
    (PostCreateView_form_valid "alice" 7 exPayloadA).author = "alice"
    ∧ PostCreateView_form_valid "alice" 7 exPayloadA
        = PostCreateView_form_valid "alice" 7 exPayloadB := by
  have h := post_create_author_is_requester "alice" 7 exPayloadA exPayloadB rfl
  exact ⟨h.1, h.2.1⟩

/-- C6: an edit request for an existing post by an anonymous requester, or by
an authenticated requester who is not the post's author, is answered with a
redirect to the post's detail view, and the database is unchanged. -/
theorem post_update_nonowner_redirects (db : DB) (pk : Nat)
    (f : PostUpdateFormFields) (P : Post) (hP : findPost db pk = some P)
    (r : Requester) (hr : r = .anon ∨ ∃ u, r = .auth u ∧ u ≠ P.author) :
    PostUpdateView db r pk f = (.redirect (.postDetail pk), db) := by
  have hnot : authorIs r P = false := by
    rcases hr with h | ⟨u, h, hu⟩
    · rw [h]; rfl
    · rw [h]; simp [authorIs, hu]
  simp [PostUpdateView, hP, hnot]

/-- C6 witness: on the concrete database, both an anonymous requester and the
authenticated non-author "bob" are redirected to the detail view of post 1,
which stays unchanged. -/
theorem post_update_nonowner_redirects_witness :
    PostUpdateView exDB .anon 1 exUpdForm = (.redirect (.postDetail 1), exDB)
    ∧ PostUpdateView exDB (.auth "bob") 1 exUpdForm
        = (.redirect (.postDetail 1), exDB) :=
  ⟨post_update_nonowner_redirects exDB 1 exUpdForm exHiddenPost (by decide)
      .anon (Or.inl rfl),
   post_update_nonowner_redirects exDB 1 exUpdForm exHiddenPost (by decide)
      (.auth "bob") (Or.inr ⟨"bob", rfl, by decide⟩)⟩

/-- C7 counterexample: an unauthenticated edit request for the concrete post 1
is answered with a redirect to the detail view — not with a forbidden — so
"unauthenticated requester attempts any mutation ⟹ forbidden" fails at post
update. -/
theorem unauth_post_update_is_not_forbidden :
    PostUpdateView exDB .anon 1 exUpdForm = (.redirect (.postDetail 1), exDB)
    ∧ (PostUpdateView exDB .anon 1 exUpdForm).1 ≠ .forbidden := by
  constructor
  · decide
  · decide

/-- C7 (amended): a forbidden response arises exactly when a requester who is
not the post's author — authenticated or anonymous — attempts a post delete,
and the database is then unchanged; an unauthenticated post-update attempt is
redirected to the detail view, the other unauthenticated mutations are
redirected to login with the database unchanged, and no mutation view other
than post delete ever answers forbidden. -/
theorem forbidden_iff_nonowner_post_delete (db : DB) (r : Requester)
    (pk comment_pk newId : Nat) (f : PostUpdateFormFields)
    (payload : PostFormPayload) (txt : String) :
    (∀ P : Post, findPost db pk = some P →
       ((PostDeleteView db r pk).1 = .forbidden ↔ authorIs r P = false))
    ∧ ((PostDeleteView db r pk).1 = .forbidden → (PostDeleteView db r pk).2 = db)
    ∧ (∀ P : Post, findPost db pk = some P →
        PostUpdateView db .anon pk f = (.redirect (.postDetail pk), db))
    ∧ PostCreateView db .anon newId payload = (.redirect .login, db)
    ∧ CommentCreateView db .anon pk newId txt = (.redirect .login, db)
    ∧ CommentUpdateView db .anon pk comment_pk txt = (.redirect .login, db)
    ∧ CommentDeleteView db .anon pk comment_pk = (.redirect .login, db)
    ∧ (PostCreateView db r newId payload).1 ≠ .forbidden
    ∧ (PostUpdateView db r pk f).1 ≠ .forbidden
    ∧ (CommentCreateView db r pk newId txt).1 ≠ .forbidden
    ∧ (CommentUpdateView db r pk comment_pk txt).1 ≠ .forbidden
    ∧ (CommentDeleteView db r pk comment_pk).1 ≠ .forbidden := by
  refine ⟨?_, ?_, ?_, rfl, rfl, rfl, rfl, ?_, ?_, ?_, ?_, ?_⟩
  · intro P hP
    by_cases h : authorIs r P = true <;> simp [PostDeleteView, hP, h]
  · intro hforb
    cases hfp : findPost db pk with
    | none => simp [PostDeleteView, hfp]
    | some P =>
      by_cases h : authorIs r P = true
      · simp [PostDeleteView, hfp, h] at hforb
      · simp [PostDeleteView, hfp, h]
  · intro P hP
    simp [PostUpdateView, hP, authorIs]
  · cases r <;> simp [PostCreateView]
  · cases hfp : findPost db pk with
    | none => simp [PostUpdateView, hfp]
    | some P => by_cases h : authorIs r P = true <;> simp [PostUpdateView, hfp, h]
  · cases r with
    | anon => simp [CommentCreateView]
    | auth u =>
      cases hfp : findPost db pk with
      | none => simp [CommentCreateView, hfp]
      | some P => simp [CommentCreateView, hfp]
  · cases r with
    | anon => simp [CommentUpdateView]
    | auth u =>
      cases hobj : CommentUpdateView_get_object db u comment_pk with
      | none => simp [CommentUpdateView, hobj]
      | some c => simp [CommentUpdateView, hobj]
  · cases r with
    | anon => simp [CommentDeleteView]
    | auth u =>
      cases hobj : CommentDeleteView_get_object db u comment_pk with
      | none => simp [CommentDeleteView, hobj]
      | some c => simp [CommentDeleteView, hobj]

/-- C7 (amended) witness: on the concrete database, the non-author "bob" (and
likewise an anonymous requester) gets a forbidden on post delete with the
database intact, while the anonymous comment-creation attempt is redirected to
login. -/
theorem forbidden_iff_nonowner_post_delete_witness :
    (PostDeleteView exDB (.auth "bob") 1).1 = .forbidden
    ∧ (PostDeleteView exDB .anon 1).1 = .forbidden
    ∧ CommentCreateView exDB .anon 1 9 "hi" = (.redirect .login, exDB) := by
  have h1 := forbidden_iff_nonowner_post_delete exDB (.auth "bob") 1 1 9 exUpdForm
    exPayloadA "hi"
  have h2 := forbidden_iff_nonowner_post_delete exDB .anon 1 1 9 exUpdForm
    exPayloadA "hi"
  exact ⟨(h1.1 exHiddenPost (by decide)).mpr (by decide),
    (h2.1 exHiddenPost (by decide)).mpr (by decide),
    h2.2.2.2.2.1⟩

/-- C9: an authenticated user `u` commenting on any existing post `P` — looked
up by identifier only, with no visibility condition on `P` — succeeds: the
comment is appended with `author = u` and `post = pk`, and the view redirects
to the post's detail page. -/
theorem comment_create_no_visibility_check (db : DB) (u : String)
    (pk newId : Nat) (txt : String) (P : Post) (hP : findPost db pk = some P) :
    CommentCreateView db (.auth u) pk newId txt
      = (.redirect (.postDetail pk),
         { db with comments :=
             db.comments ++ [{ id := newId, text := txt, author := u, post := pk }] })
    ∧ ({ id := newId, text := txt, author := u, post := pk } : Comment).author = u
    ∧ ({ id := newId, text := txt, author := u, post := pk } : Comment).post = pk := by
  refine ⟨?_, rfl, rfl⟩
  simp [CommentCreateView, hP]

/-- C9 witness: on the concrete database, "bob" — not the author — successfully
comments on post 1 even though that post is unpublished (it fails the
visibility tri-predicate at `now = 10`). -/
theorem comment_create_no_visibility_check_witness :
    CommentCreateView exDB (.auth "bob") 1 9 "hi"
      = (.redirect (.postDetail 1),
         { exDB with comments :=
             exDB.comments ++ [{ id := 9, text := "hi", author := "bob", post := 1 }] })
    ∧ postVisible exDB 10 exHiddenPost = false := by
  have h := comment_create_no_visibility_check exDB "bob" 1 9 "hi" exHiddenPost (by decide)
  exact ⟨h.1, by decide⟩

/-- C10: applying an update form writes exactly the five editable fields
(title, text, location, category, image) and preserves the post's author,
is_published flag, publish timestamp and identifier; at the view level, an
author's update rewrites the targeted post to exactly that result and leaves
every other post in place. -/
theorem post_update_frame (p : Post) (f : PostUpdateFormFields) :
    (applyPostUpdate p f).title = f.title
    ∧ (applyPostUpdate p f).text = f.text
    ∧ (applyPostUpdate p f).location = f.location
    ∧ (applyPostUpdate p f).category = f.category
    ∧ (applyPostUpdate p f).image = f.image
    ∧ (applyPostUpdate p f).author = p.author
    ∧ (applyPostUpdate p f).is_published = p.is_published
    ∧ (applyPostUpdate p f).pub_date = p.pub_date
    ∧ (applyPostUpdate p f).id = p.id
    ∧ ∀ (db : DB) (pk : Nat) (P : Post), findPost db pk = some P →
        findPost (PostUpdateView db (.auth P.author) pk f).2 pk
          = some (applyPostUpdate P f)
        ∧ ∀ q ∈ db.posts, q.id ≠ pk → q ∈ (PostUpdateView db (.auth P.author) pk f).2.posts := by
  refine ⟨rfl, rfl, rfl, rfl, rfl, rfl, rfl, rfl, rfl, ?_⟩
  intro db pk P hP
  have hauth : authorIs (.auth P.author) P = true := by simp [authorIs]
  have hg : ∀ q : Post,
      ((if q.id == pk then applyPostUpdate q f else q).id == pk) = (q.id == pk) := by
    intro q
    by_cases h : (q.id == pk) = true <;> simp [h, applyPostUpdate]
  constructor
  · rw [PostUpdateView]
    rw [hP]
    simp only [hauth, if_true]
    show (db.posts.map fun q => if q.id == pk then applyPostUpdate q f else q).find?
        (fun p => p.id == pk) = _
    rw [find?_map_invariant _ _ hg]
    rw [show db.posts.find? (fun p => p.id == pk) = some P from hP]
    have hPid : P.id = pk := by
      have hP2 : db.posts.find? (fun q => q.id == pk) = some P := hP
      simpa using List.find?_some hP2
    simp [hPid]
  · intro q hq hneq
    rw [PostUpdateView]
    rw [hP]
    simp only [hauth, if_true]
    have hqid : (q.id == pk) = false := by simp [hneq]
    refine List.mem_map.mpr ⟨q, hq, ?_⟩
    simp [hqid]

/-- C10 witness: the author "alice" updates post 1 on the concrete database;
the stored post keeps its author, unpublished flag and publish date, carries
the new title, and post 2 is untouched. -/
theorem post_update_frame_witness :
    (applyPostUpdate exHiddenPost exUpdForm).author = exHiddenPost.author
    ∧ findPost (PostUpdateView exDB (.auth "alice") 1 exUpdForm).2 1
        = some (applyPostUpdate exHiddenPost exUpdForm)
    ∧ exVisiblePost ∈ (PostUpdateView exDB (.auth "alice") 1 exUpdForm).2.posts := by
  have h := post_update_frame exHiddenPost exUpdForm
  have h2 := h.2.2.2.2.2.2.2.2.2 exDB 1 exHiddenPost (by decide)
  exact ⟨h.2.2.2.2.2.1, h2.1, h2.2 exVisiblePost (by decide) (by decide)⟩

/-- C2 witness: the concrete published post satisfies the tri-predicate at
`now = 10` and is listed both in the index and (under its category's slug
"nature") in the category listing. -/
theorem index_and_category_listing_iff_witness :
    exVisiblePost ∈ PostListView_get_queryset exDB 10
    ∧ exVisiblePost ∈ CategoryListView_get_queryset exDB 10 "nature" := by
  have h := index_and_category_listing_iff exDB 10 exVisiblePost (by decide)
  exact ⟨h.1.mpr (by decide), (h.2 "nature" (by decide)).mpr (by decide)⟩
